import Mathlib

/-!
Verification of the hospital customer-support Q&A system.

Shallow embedding of the three source files:
* `src/data_processing.py` — `HospitalDataProcessor` (text cleaning, Q&A pair
  construction),
* `src/rag_system.py` — `HospitalRAGSystem` (config loading, vector-store
  setup, retrieval-pipeline `query`),
* `app/streamlit_app.py` — `FullRAGSystem` (direct-generation `query` with the
  keyword fallback table) and the submit handler of the page.

Text is modelled as `List Char` (Python strings by code points).  External
library calls (the retrieval chain, the OpenAI chat call, Chroma) are modelled
by outcome parameters: the embedding of a method taking such an outcome
describes what the method returns for every possible behaviour of the
external call, including the exception case that the source catches.
Confidence values are modelled as rationals (the Python floats 0.9, 0.8, 0.3,
0.0 and the ratio `len(source_docs) / top_k`).
-/

/-! ### Character classes of `preprocess_text` (data_processing.py lines 33-47)

`re.sub(r'[^\w\s가-힣.,!?]', '', text)` keeps word characters, whitespace,
Hangul syllables and the four punctuation marks.  `\s` is modelled by the six
ASCII whitespace characters Python's `\s` always matches; `\w` by ASCII
alphanumerics, the underscore and Hangul syllables (the alphabet the corpus
uses — the claims settled below do not depend on the exact extent of `\w`
beyond the characters appearing in the concrete inputs used).
-/

def isSpaceChar (c : Char) : Bool :=
  c == ' ' || c == '\t' || c == '\n' || c == '\r' || c == '\x0b' || c == '\x0c'

def isHangulSyllable (c : Char) : Bool :=
  0xAC00 ≤ c.toNat && c.toNat ≤ 0xD7A3

def isWordChar (c : Char) : Bool :=
  c.isAlphanum || c == '_' || isHangulSyllable c

def isAllowedChar (c : Char) : Bool :=
  isWordChar c || isSpaceChar c || isHangulSyllable c ||
    c == '.' || c == ',' || c == '!' || c == '?'

/-- Python `str.strip()`: drop leading and trailing whitespace. -/
def pyStrip (s : List Char) : List Char :=
  ((s.dropWhile (fun c => isSpaceChar c)).reverse.dropWhile
      (fun c => isSpaceChar c)).reverse

/-- `re.sub(r'\s+', ' ', text)`: each maximal run of whitespace becomes one
space.  The flag records whether the previous character was whitespace (i.e.
whether we are inside a run whose replacement space was already emitted). -/
def collapseAux : Bool → List Char → List Char
  | _, [] => []
  | prevSpace, c :: rest =>
    if isSpaceChar c then
      if prevSpace then collapseAux true rest
      else ' ' :: collapseAux true rest
    else c :: collapseAux false rest

def collapseSpaces (s : List Char) : List Char := collapseAux false s

/-- `HospitalDataProcessor.preprocess_text` (data_processing.py lines 33-47):
`none` models a `NaN` cell (`pd.isna` ⇒ `""`); otherwise strip, remove the
characters outside the allow-list, then collapse whitespace runs. -/
def preprocess_text : Option (List Char) → List Char
  | none => []
  | some t => collapseSpaces ((pyStrip t).filter (fun c => isAllowedChar c))

/-! ### Q&A pair construction (data_processing.py lines 49-69) -/

/-- One raw row of the loaded table; `none` in a field models a missing
column or a `NaN` cell (both reach `preprocess_text` as the empty result). -/
structure RawRow where
  question : Option (List Char)
  answer : Option (List Char)
deriving DecidableEq

/-- The dictionary appended by `create_qa_pairs` for one kept row. -/
structure QAPair where
  id : Nat
  question : List Char
  answer : List Char
  category : List Char
  meta_source : List Char
  meta_index : Nat
deriving DecidableEq

def mkQAPair (idx : Nat) (q a : List Char) : QAPair :=
  ⟨idx, q, a, "hospital".toList, "hospital_qa".toList, idx⟩

/-- The loop body of `create_qa_pairs`: `idx` is the running row ordinal
(`df.iterrows()` yields it for every row, kept or dropped). -/
def create_qa_pairs_from (idx : Nat) : List RawRow → List QAPair
  | [] => []
  | row :: rest =>
    if preprocess_text row.question ≠ [] ∧ preprocess_text row.answer ≠ [] then
      mkQAPair idx (preprocess_text row.question) (preprocess_text row.answer)
        :: create_qa_pairs_from (idx + 1) rest
    else
      create_qa_pairs_from (idx + 1) rest

/-- `HospitalDataProcessor.create_qa_pairs` (data_processing.py lines 49-69). -/
def create_qa_pairs (df : List RawRow) : List QAPair :=
  create_qa_pairs_from 0 df

/-! ### The retrieval-pipeline system (rag_system.py) -/

/-- The `config` dictionary loaded by `yaml.safe_load`: each recognized key
may be absent (`none`), in which case accessing it raises `KeyError` at the
point of access.  The nested sections (`model`, `data`, `rag`) are flattened;
a missing section behaves like a missing key. -/
structure ConfigDoc where
  chunk_size : Option Int
  chunk_overlap : Option Int
  llm_model : Option (List Char)
  vectorstore_path : Option (List Char)
  top_k : Option Int
  max_tokens : Option Int
deriving DecidableEq

/-- Opaque token for the embedding-model object. -/
inductive Embeddings | mk
deriving DecidableEq

/-- Opaque token for the Chroma vector-store object. -/
inductive VectorStore | mk
deriving DecidableEq

/-- `vectorstore.as_retriever(search_kwargs={"k": top_k})`. -/
structure Retriever where
  vectorstore : VectorStore
  k : Int
deriving DecidableEq

/-- Opaque token for the `RetrievalQA` chain object. -/
inductive QAChain | mk
deriving DecidableEq

/-- The mutable fields of a `HospitalRAGSystem` instance. -/
structure RAGState where
  config : ConfigDoc
  embeddings : Option Embeddings
  vectorstore : Option VectorStore
  retriever : Option Retriever
  qa_chain : Option QAChain
deriving DecidableEq

/-- A langchain `Document` as seen through the claims: only its text matters
here (retrieved documents are counted, returned and compared, never opened). -/
structure Document where
  page_content : List Char
deriving DecidableEq

/-- The dictionary returned by both `query` implementations.  `question` is
`none` when the returned dictionary has no `question` key (the
not-initialized branch of `HospitalRAGSystem.query` omits it). -/
structure QueryResult where
  answer : List Char
  source_documents : List Document
  confidence : ℚ
  question : Option (List Char)
deriving DecidableEq

/-- `HospitalRAGSystem.__init__` (rag_system.py lines 19-27): stores the
parsed config document unexamined and sets the four fields to `None`.  It
performs no validation of the document whatsoever. -/
def HospitalRAGSystem.init (cfg : ConfigDoc) : RAGState :=
  ⟨cfg, none, none, none, none⟩

/-- Outcome of the external `Chroma.from_documents` build (including the
text-splitter run feeding it): the store object, or an exception. -/
inductive BuildOutcome where
  | ok (vs : VectorStore)
  | exn
deriving DecidableEq

/-- `HospitalRAGSystem.setup_vectorstore` (rag_system.py lines 77-104),
translated statement by statement inside the broad `try/except` that prints
and swallows every exception:
1. the splitter constructor reads `model.chunk_size` and
   `model.chunk_overlap` — a missing key raises `KeyError`, caught: state
   unchanged;
2. the `Chroma.from_documents` call reads `data.vectorstore_path` — missing
   key: caught, state unchanged; then the external build runs — on failure
   the exception is caught before `self.vectorstore` is assigned;
3. on build success `self.vectorstore` is assigned, then `as_retriever`
   reads `rag.top_k` — if that key is missing the `KeyError` is caught with
   `vectorstore` already set and `retriever` still `None`. -/
def HospitalRAGSystem.setup_vectorstore (s : RAGState) (build : BuildOutcome) :
    RAGState :=
  match s.config.chunk_size, s.config.chunk_overlap with
  | some _, some _ =>
    match s.config.vectorstore_path with
    | some _ =>
      match build with
      | .exn => s
      | .ok vs =>
        match s.config.top_k with
        | some k => { s with vectorstore := some vs,
                             retriever := some ⟨vs, k⟩ }
        | none => { s with vectorstore := some vs }
    | none => s
  | _, _ => s

/-- Outcome of the external `self.qa_chain({"query": question})` call: the
result dictionary (`result`, `source_documents`), or an exception whose
`str(e)` is `msg`. -/
inductive ChainOutcome where
  | ok (result : List Char) (source_documents : List Document)
  | exn (msg : List Char)
deriving DecidableEq

def notInitializedMsg : List Char :=
  "RAG 시스템이 초기화되지 않았습니다.".toList

/-- `f"질의 처리 중 오류가 발생했습니다: {str(e)}"` of the `except` branch. -/
def queryErrorAnswer (e : List Char) : List Char :=
  "질의 처리 중 오류가 발생했습니다: ".toList ++ e

/-- `str(e)` of the `KeyError` raised when `config["rag"]["top_k"]` is
missing (the flattened model does not distinguish which level is absent). -/
def topKKeyErrorMsg : List Char := "KeyError".toList

/-- `str(e)` of the `ZeroDivisionError` from `len(source_docs) / 0`. -/
def zeroDivisionMsg : List Char := "division by zero".toList

/-- `HospitalRAGSystem.query` (rag_system.py lines 128-161).  Everything is
inside `try/except Exception`:
* `qa_chain is None` ⇒ the fixed not-initialized result (note: this return
  dictionary has no `question` key);
* the chain call raising ⇒ the except-branch result;
* on chain success, `config["rag"]["top_k"]` is read — a missing key raises
  `KeyError` and `top_k == 0` raises `ZeroDivisionError`, both caught by the
  same except branch;
* otherwise `confidence = min(1.0, len(source_docs) / top_k)`. -/
def HospitalRAGSystem.query (s : RAGState) (chain : ChainOutcome)
    (question : List Char) : QueryResult :=
  match s.qa_chain with
  | none => ⟨notInitializedMsg, [], 0, none⟩
  | some _ =>
    match chain with
    | .exn msg => ⟨queryErrorAnswer msg, [], 0, some question⟩
    | .ok answer docs =>
      match s.config.top_k with
      | none => ⟨queryErrorAnswer topKKeyErrorMsg, [], 0, some question⟩
      | some k =>
        if k = 0 then ⟨queryErrorAnswer zeroDivisionMsg, [], 0, some question⟩
        else ⟨answer, docs, min 1 ((docs.length : ℚ) / (k : ℚ)), some question⟩

/-! ### The direct-generation system (streamlit_app.py lines 56-133) -/

/-- Outcome of the external `client.chat.completions.create` call (any
failure — import error, network, auth, quota — lands in the same `except`). -/
inductive GPTOutcome where
  | ok (content : List Char)
  | exn
deriving DecidableEq

/-- Python `needle in haystack` on strings: contiguous substring test. -/
def isSubstringOf (needle : List Char) : List Char → Bool
  | [] => needle.isEmpty
  | c :: rest => needle.isPrefixOf (c :: rest) || isSubstringOf needle rest

/-- The `mock_answers` dictionary (streamlit_app.py lines 100-106) in its
insertion order, which is the order the fallback loop iterates keys in. -/
def mock_answers : List (List Char × List Char) :=
  [("예약".toList,
    "예약은 전화(02-1234-5678) 또는 온라인(www.hospital.com)으로 가능합니다.".toList),
   ("취소".toList,
    "예약 취소는 진료 24시간 전까지 가능합니다. 전화 또는 온라인으로 취소해주세요.".toList),
   ("진료시간".toList,
    "평일 오전 9시부터 오후 6시까지, 토요일 오전 9시부터 오후 1시까지 진료합니다.".toList),
   ("응급실".toList,
    "응급실은 24시간 운영됩니다. 응급상황 시 119에 신고하세요.".toList),
   ("밀크시슬".toList,
    "밀크시슬(Milk Thistle)은 간 건강에 도움을 주는 천연 보조제입니다. 간 기능 개선과 해독 작용에 도움이 됩니다. 처방전 없이 구입 가능하지만, 복용 전 의사와 상담하시기 바랍니다.".toList)]

def noAnswerMsg : List Char :=
  "죄송합니다. 해당 질문에 대한 답변을 찾을 수 없습니다. 전화(02-1234-5678)로 문의해주세요.".toList

/-- `FullRAGSystem.query` (streamlit_app.py lines 64-127).  On model success
the raw content is returned with confidence `0.9`; on any exception the
fallback loop scans `mock_answers` keys in insertion order and takes the
first key that is a substring of the question (`key in question`), answering
with confidence `0.8`, or the fixed apology with confidence `0.3` when no
key occurs. -/
def FullRAGSystem.query (g : GPTOutcome) (question : List Char) : QueryResult :=
  match g with
  | .ok content => ⟨content, [], 9/10, some question⟩
  | .exn =>
    match mock_answers.find? (fun kv => isSubstringOf kv.1 question) with
    | some kv => ⟨kv.2, [], 8/10, some question⟩
    | none => ⟨noAnswerMsg, [], 3/10, some question⟩

/-! Branch equations of the two `query` functions, one per control path of
the source. -/

theorem query_not_init {s : RAGState} {chain : ChainOutcome} {q : List Char}
    (h : s.qa_chain = none) :
    HospitalRAGSystem.query s chain q = ⟨notInitializedMsg, [], 0, none⟩ := by
  unfold HospitalRAGSystem.query
  rw [h]

theorem query_exn {s : RAGState} {c : QAChain} {msg q : List Char}
    (h : s.qa_chain = some c) :
    HospitalRAGSystem.query s (ChainOutcome.exn msg) q =
      ⟨queryErrorAnswer msg, [], 0, some q⟩ := by
  unfold HospitalRAGSystem.query
  rw [h]

theorem query_ok_no_topk {s : RAGState} {c : QAChain} {ans : List Char}
    {docs : List Document} {q : List Char}
    (h : s.qa_chain = some c) (h2 : s.config.top_k = none) :
    HospitalRAGSystem.query s (ChainOutcome.ok ans docs) q =
      ⟨queryErrorAnswer topKKeyErrorMsg, [], 0, some q⟩ := by
  unfold HospitalRAGSystem.query
  rw [h, h2]

theorem query_ok_zero_topk {s : RAGState} {c : QAChain} {ans : List Char}
    {docs : List Document} {q : List Char}
    (h : s.qa_chain = some c) (h2 : s.config.top_k = some 0) :
    HospitalRAGSystem.query s (ChainOutcome.ok ans docs) q =
      ⟨queryErrorAnswer zeroDivisionMsg, [], 0, some q⟩ := by
  unfold HospitalRAGSystem.query
  rw [h, h2]
  rfl

theorem query_ok_pos {s : RAGState} {c : QAChain} {k : Int} {ans : List Char}
    {docs : List Document} {q : List Char}
    (h : s.qa_chain = some c) (h2 : s.config.top_k = some k) (h3 : k ≠ 0) :
    HospitalRAGSystem.query s (ChainOutcome.ok ans docs) q =
      ⟨ans, docs, min 1 ((docs.length : ℚ) / (k : ℚ)), some q⟩ := by
  unfold HospitalRAGSystem.query
  rw [h, h2]
  show (if k = 0 then (⟨queryErrorAnswer zeroDivisionMsg, [], 0, some q⟩ : QueryResult)
    else ⟨ans, docs, min 1 ((docs.length : ℚ) / (k : ℚ)), some q⟩) = _
  rw [if_neg h3]

theorem full_query_ok {content q : List Char} :
    FullRAGSystem.query (GPTOutcome.ok content) q =
      ⟨content, [], 9/10, some q⟩ := rfl

theorem full_query_exn_found {q : List Char} {kv : List Char × List Char}
    (h : mock_answers.find? (fun kv => isSubstringOf kv.1 q) = some kv) :
    FullRAGSystem.query GPTOutcome.exn q = ⟨kv.2, [], 8/10, some q⟩ := by
  unfold FullRAGSystem.query
  rw [h]

theorem full_query_exn_none {q : List Char}
    (h : mock_answers.find? (fun kv => isSubstringOf kv.1 q) = none) :
    FullRAGSystem.query GPTOutcome.exn q = ⟨noAnswerMsg, [], 3/10, some q⟩ := by
  unfold FullRAGSystem.query
  rw [h]

/-- The submit-button handler (streamlit_app.py lines 160-181): `query` is
invoked only when `user_question.strip()` is truthy; for blank input a
warning is shown and no query call happens (`none`). -/
def handle_submit (g : GPTOutcome) (user_question : List Char) :
    Option QueryResult :=
  if pyStrip user_question ≠ [] then some (FullRAGSystem.query g user_question)
  else none

/-! ### Lemmas about the cleaning pipeline (for claim C4) -/

/-- Whitespace normal form: every whitespace character is a plain space and
no two adjacent characters are both whitespace. -/
def NormalWS (l : List Char) : Prop :=
  (∀ c ∈ l, isSpaceChar c = true → c = ' ') ∧
  l.Chain' (fun a b => ¬(isSpaceChar a = true ∧ isSpaceChar b = true))

theorem collapseAux_cons_space_true {a : Char} {rest : List Char}
    (h : isSpaceChar a = true) :
    collapseAux true (a :: rest) = collapseAux true rest := by
  simp [collapseAux, h]

theorem collapseAux_cons_space_false {a : Char} {rest : List Char}
    (h : isSpaceChar a = true) :
    collapseAux false (a :: rest) = ' ' :: collapseAux true rest := by
  simp [collapseAux, h]

theorem collapseAux_cons_nonspace {a : Char} {rest : List Char} {b : Bool}
    (h : isSpaceChar a = false) :
    collapseAux b (a :: rest) = a :: collapseAux false rest := by
  simp [collapseAux, h]

/-- Every character emitted by the collapse pass is a space it substituted
for a whitespace run, or a character of the input. -/
theorem mem_collapseAux : ∀ (l : List Char) (b : Bool) {c : Char},
    c ∈ collapseAux b l → c = ' ' ∨ c ∈ l := by
  intro l
  induction l with
  | nil => intro b c h; simp [collapseAux] at h
  | cons a rest ih =>
    intro b c h
    cases hsa : isSpaceChar a
    · rw [collapseAux_cons_nonspace hsa] at h
      rcases List.mem_cons.mp h with rfl | h2
      · exact Or.inr (List.mem_cons_self _ _)
      · rcases ih false h2 with h3 | h3
        · exact Or.inl h3
        · exact Or.inr (List.mem_cons_of_mem _ h3)
    · cases b
      · rw [collapseAux_cons_space_false hsa] at h
        rcases List.mem_cons.mp h with rfl | h2
        · exact Or.inl rfl
        · rcases ih true h2 with h3 | h3
          · exact Or.inl h3
          · exact Or.inr (List.mem_cons_of_mem _ h3)
      · rw [collapseAux_cons_space_true hsa] at h
        rcases ih true h with h3 | h3
        · exact Or.inl h3
        · exact Or.inr (List.mem_cons_of_mem _ h3)

/-- In the inside-a-run state the collapse pass never emits a leading
whitespace character. -/
theorem collapseAux_true_head : ∀ (l : List Char) (d : Char),
    (collapseAux true l).head? = some d → isSpaceChar d = false := by
  intro l
  induction l with
  | nil => intro d h; simp [collapseAux] at h
  | cons a rest ih =>
    intro d h
    cases hsa : isSpaceChar a
    · rw [collapseAux_cons_nonspace hsa] at h
      rw [List.head?_cons, Option.some_inj] at h
      rw [← h]; exact hsa
    · rw [collapseAux_cons_space_true hsa] at h
      exact ih d h

/-- The output of the collapse pass is in whitespace normal form. -/
theorem normalWS_collapseAux : ∀ (l : List Char) (b : Bool),
    NormalWS (collapseAux b l) := by
  intro l
  induction l with
  | nil =>
    intro b
    exact ⟨by intro c hc; simp [collapseAux] at hc, by simp [collapseAux]⟩
  | cons a rest ih =>
    intro b
    cases hsa : isSpaceChar a
    · rw [collapseAux_cons_nonspace hsa]
      obtain ⟨hs, hn⟩ := ih false
      refine ⟨?_, ?_⟩
      · intro c hc hcsp
        rcases List.mem_cons.mp hc with rfl | h2
        · rw [hsa] at hcsp; cases hcsp
        · exact hs c h2 hcsp
      · rw [List.chain'_cons']
        refine ⟨?_, hn⟩
        intro y _ hcontra
        rw [hsa] at hcontra
        cases hcontra.1
    · cases b
      · rw [collapseAux_cons_space_false hsa]
        obtain ⟨hs, hn⟩ := ih true
        refine ⟨?_, ?_⟩
        · intro c hc hcsp
          rcases List.mem_cons.mp hc with rfl | h2
          · rfl
          · exact hs c h2 hcsp
        · rw [List.chain'_cons']
          refine ⟨?_, hn⟩
          intro y hy hcontra
          have := collapseAux_true_head rest y hy
          rw [this] at hcontra
          cases hcontra.2
      · rw [collapseAux_cons_space_true hsa]
        exact ih true

/-- The collapse pass is the identity on whitespace-normal input (in the
initial state; in the inside-a-run state provided the input does not begin
with whitespace). -/
theorem collapseAux_eq_self : ∀ (l : List Char), NormalWS l →
    ∀ (b : Bool), (b = true → ∀ d, l.head? = some d → isSpaceChar d = false) →
    collapseAux b l = l := by
  intro l
  induction l with
  | nil => intro _ b _; cases b <;> rfl
  | cons a rest ih =>
    intro hnorm b hb
    obtain ⟨hs, hn⟩ := hnorm
    have htail : NormalWS rest :=
      ⟨fun c hc => hs c (List.mem_cons_of_mem _ hc), (List.chain'_cons'.mp hn).2⟩
    cases hsa : isSpaceChar a
    · rw [collapseAux_cons_nonspace hsa]
      rw [ih htail false (fun hf => absurd hf Bool.false_ne_true)]
    · cases b
      · rw [collapseAux_cons_space_false hsa]
        have ha : a = ' ' := hs a (List.mem_cons_self _ _) hsa
        rw [ih htail true ?_, ha]
        intro _ d hd
        cases hsd : isSpaceChar d
        · rfl
        · exact absurd ⟨hsa, hsd⟩ ((List.chain'_cons'.mp hn).1 d hd)
      · have hfa := hb rfl a List.head?_cons
        rw [hfa] at hsa
        cases hsa

/-- Characters surviving `str.strip()` are characters of the input. -/
theorem mem_pyStrip {c : Char} {l : List Char} (h : c ∈ pyStrip l) : c ∈ l := by
  rw [pyStrip, List.mem_reverse] at h
  have h2 := (List.dropWhile_suffix (fun c => isSpaceChar c)).subset h
  rw [List.mem_reverse] at h2
  exact (List.dropWhile_suffix (fun c => isSpaceChar c)).subset h2

/-- `str.strip()` preserves whitespace normal form. -/
theorem normalWS_pyStrip {l : List Char} (h : NormalWS l) :
    NormalWS (pyStrip l) := by
  refine ⟨fun c hc => h.1 c (mem_pyStrip hc), ?_⟩
  show (pyStrip l).Chain' _
  rw [pyStrip, List.chain'_reverse]
  apply List.Chain'.suffix ?_ (List.dropWhile_suffix _)
  rw [List.chain'_reverse]
  apply List.Chain'.suffix ?_ (List.dropWhile_suffix _)
  exact h.2

/-! ### Lemmas about `create_qa_pairs` (for claim C5) -/

/-- Every emitted pair comes from a source row whose cleaned question and
answer are non-empty, and carries that row's ordinal as its `id`. -/
theorem mem_create_qa_pairs_from : ∀ (df : List RawRow) (idx : Nat) {u : QAPair},
    u ∈ create_qa_pairs_from idx df →
    ∃ i row, df[i]? = some row ∧
      preprocess_text row.question ≠ [] ∧ preprocess_text row.answer ≠ [] ∧
      u = mkQAPair (idx + i) (preprocess_text row.question)
            (preprocess_text row.answer) := by
  intro df
  induction df with
  | nil => intro idx u h; simp [create_qa_pairs_from] at h
  | cons row rest ih =>
    intro idx u h
    rw [create_qa_pairs_from] at h
    by_cases hc : preprocess_text row.question ≠ [] ∧ preprocess_text row.answer ≠ []
    · rw [if_pos hc] at h
      rcases List.mem_cons.mp h with rfl | h2
      · exact ⟨0, row, by simp, hc.1, hc.2, by rw [Nat.add_zero]⟩
      · obtain ⟨i, r, hget, hq, ha, hu⟩ := ih (idx + 1) h2
        exact ⟨i + 1, r, by simpa using hget, hq, ha,
          by rw [hu, Nat.add_assoc, Nat.add_comm 1 i]⟩
    · rw [if_neg hc] at h
      obtain ⟨i, r, hget, hq, ha, hu⟩ := ih (idx + 1) h
      exact ⟨i + 1, r, by simpa using hget, hq, ha,
        by rw [hu, Nat.add_assoc, Nat.add_comm 1 i]⟩

/-- Ids assigned from start ordinal `idx` are at least `idx`. -/
theorem create_qa_pairs_from_id_lower {df : List RawRow} {idx : Nat} {u : QAPair}
    (h : u ∈ create_qa_pairs_from idx df) : idx ≤ u.id := by
  obtain ⟨i, r, _, _, _, hu⟩ := mem_create_qa_pairs_from df idx h
  rw [hu]
  exact Nat.le_add_right idx i

/-- The emitted pairs carry strictly increasing ids (source row order). -/
theorem create_qa_pairs_from_sorted : ∀ (df : List RawRow) (idx : Nat),
    (create_qa_pairs_from idx df).Pairwise (fun u v => u.id < v.id) := by
  intro df
  induction df with
  | nil => intro idx; simp [create_qa_pairs_from]
  | cons row rest ih =>
    intro idx
    rw [create_qa_pairs_from]
    by_cases hc : preprocess_text row.question ≠ [] ∧ preprocess_text row.answer ≠ []
    · rw [if_pos hc]
      refine List.Pairwise.cons ?_ (ih (idx + 1))
      intro v hv
      have hle := create_qa_pairs_from_id_lower hv
      show idx < v.id
      omega
    · rw [if_neg hc]
      exact ih (idx + 1)

/-- Every row whose cleaned question and answer are non-empty produces its
pair, with `id` the row's ordinal counted from `idx`. -/
theorem create_qa_pairs_from_mem_of_get :
    ∀ (df : List RawRow) (idx i : Nat) (row : RawRow),
    df[i]? = some row → preprocess_text row.question ≠ [] →
    preprocess_text row.answer ≠ [] →
    mkQAPair (idx + i) (preprocess_text row.question)
        (preprocess_text row.answer) ∈ create_qa_pairs_from idx df := by
  intro df
  induction df with
  | nil => intro idx i row h; simp at h
  | cons r rest ih =>
    intro idx i row hget hq ha
    cases i with
    | zero =>
      rw [List.getElem?_cons_zero, Option.some_inj] at hget
      subst hget
      rw [create_qa_pairs_from, if_pos ⟨hq, ha⟩, Nat.add_zero]
      exact List.mem_cons_self _ _
    | succ j =>
      rw [List.getElem?_cons_succ] at hget
      have h2 := ih (idx + 1) j row hget hq ha
      have heq : idx + 1 + j = idx + (j + 1) := by omega
      rw [heq] at h2
      rw [create_qa_pairs_from]
      by_cases hc : preprocess_text r.question ≠ [] ∧ preprocess_text r.answer ≠ []
      · rw [if_pos hc]
        exact List.mem_cons_of_mem _ h2
      · rw [if_neg hc]
        exact h2

/-! ### The substring test agrees with list-infix containment -/

theorem isSubstringOf_iff {needle : List Char} : ∀ {haystack : List Char},
    isSubstringOf needle haystack = true ↔ needle <:+: haystack := by
  intro haystack
  induction haystack with
  | nil =>
    rw [isSubstringOf, List.infix_nil, List.isEmpty_iff]
  | cons c rest ih =>
    rw [isSubstringOf, Bool.or_eq_true, List.isPrefixOf_iff_prefix, ih,
      List.infix_cons_iff]

/-! ### Claim theorems -/

/-- C1: for every question and system state, `query` returns a `QueryResult`
(both embedded query functions are total for every outcome of the external
call, i.e. nothing escapes the caller boundary); in particular when
`qa_chain` is `None` the result is the fixed not-initialized error answer
with no source documents and confidence `0.0`, and when an internal
exception occurs during processing the result carries an error answer
string (the not-initialized message or the except-branch message), an empty
`source_documents` list and confidence `0.0`. -/
theorem query_never_raises_and_error_paths :
    (∀ (s : RAGState) (chain : ChainOutcome) (question : List Char),
      s.qa_chain = none →
      HospitalRAGSystem.query s chain question =
        ⟨notInitializedMsg, [], 0, none⟩) ∧
    (∀ (s : RAGState) (msg question : List Char),
      (HospitalRAGSystem.query s (ChainOutcome.exn msg) question).source_documents
          = [] ∧
      (HospitalRAGSystem.query s (ChainOutcome.exn msg) question).confidence = 0 ∧
      ((HospitalRAGSystem.query s (ChainOutcome.exn msg) question).answer =
          notInitializedMsg ∨
        (HospitalRAGSystem.query s (ChainOutcome.exn msg) question).answer =
          queryErrorAnswer msg)) ∧
    (∀ (g : GPTOutcome) (question : List Char), ∃ ans conf,
      FullRAGSystem.query g question = ⟨ans, [], conf, some question⟩) := by
  refine ⟨?_, ?_, ?_⟩
  · intro s chain question h
    unfold HospitalRAGSystem.query
    rw [h]
  · intro s msg question
    unfold HospitalRAGSystem.query
    cases s.qa_chain
    · exact ⟨rfl, rfl, Or.inl rfl⟩
    · exact ⟨rfl, rfl, Or.inr rfl⟩
  · intro g question
    cases g with
    | ok content => exact ⟨content, 9/10, rfl⟩
    | exn =>
      unfold FullRAGSystem.query
      cases mock_answers.find? (fun kv => isSubstringOf kv.1 question) with
      | none => exact ⟨noAnswerMsg, 3/10, rfl⟩
      | some kv => exact ⟨kv.2, 8/10, rfl⟩

/-- C1 witness: a freshly constructed, never-initialized system answers a
query with the fixed not-initialized result. -/
theorem query_error_paths_witness :
    HospitalRAGSystem.query
      (HospitalRAGSystem.init
        ⟨some 500, some 50, some ("gpt".toList), some ("db".toList),
          some 3, some 512⟩)
      (ChainOutcome.ok ("ans".toList) []) ("질문".toList) =
      ⟨notInitializedMsg, [], 0, none⟩ :=
  query_never_raises_and_error_paths.1 _ _ _ rfl

/-- C2: with `rag.top_k` a positive integer, a successful retrieval-pipeline
query has confidence `min(1.0, len(source_docs) / top_k)`; and on every path
of both systems the returned confidence lies within `[0, 1]`. -/
theorem confidence_policy :
    (∀ (s : RAGState) (c : QAChain) (k : Int) (ans : List Char)
        (docs : List Document) (q : List Char),
      s.qa_chain = some c → s.config.top_k = some k → 0 < k →
      (HospitalRAGSystem.query s (ChainOutcome.ok ans docs) q).confidence =
        min 1 ((docs.length : ℚ) / (k : ℚ))) ∧
    (∀ (s : RAGState) (chain : ChainOutcome) (q : List Char),
      (∀ k, s.config.top_k = some k → 0 < k) →
      0 ≤ (HospitalRAGSystem.query s chain q).confidence ∧
        (HospitalRAGSystem.query s chain q).confidence ≤ 1) ∧
    (∀ (g : GPTOutcome) (q : List Char),
      0 ≤ (FullRAGSystem.query g q).confidence ∧
        (FullRAGSystem.query g q).confidence ≤ 1) := by
  refine ⟨?_, ?_, ?_⟩
  · intro s c k ans docs q hqc htk hk
    rw [query_ok_pos hqc htk (by omega)]
  · intro s chain q hk
    cases hqc : s.qa_chain with
    | none =>
      rw [query_not_init hqc]
      exact ⟨le_refl 0, by norm_num⟩
    | some c =>
      cases chain with
      | exn msg =>
        rw [query_exn hqc]
        exact ⟨le_refl 0, by norm_num⟩
      | ok ans docs =>
        cases htk : s.config.top_k with
        | none =>
          rw [query_ok_no_topk hqc htk]
          exact ⟨le_refl 0, by norm_num⟩
        | some k =>
          by_cases hk0 : k = 0
          · subst hk0
            rw [query_ok_zero_topk hqc htk]
            exact ⟨le_refl 0, by norm_num⟩
          · rw [query_ok_pos hqc htk hk0]
            have hkpos : (0 : ℚ) < (k : ℚ) := by
              have := hk k htk
              exact_mod_cast this
            exact ⟨le_min (by norm_num)
              (div_nonneg (Nat.cast_nonneg _) (le_of_lt hkpos)),
              min_le_left _ _⟩
  · intro g q
    cases g with
    | ok content =>
      rw [full_query_ok]
      exact ⟨by norm_num, by norm_num⟩
    | exn =>
      cases hf : mock_answers.find? (fun kv => isSubstringOf kv.1 q) with
      | none =>
        rw [full_query_exn_none hf]
        exact ⟨by norm_num, by norm_num⟩
      | some kv =>
        rw [full_query_exn_found hf]
        exact ⟨by norm_num, by norm_num⟩

/-- C2 witness: with `top_k = 4` and two retrieved documents the confidence
is `min(1, 2/4) = 1/2`. -/
theorem confidence_policy_witness :
    (HospitalRAGSystem.query
      ⟨⟨some 500, some 50, some ("gpt".toList), some ("db".toList),
          some 4, some 512⟩,
        none, none, none, some QAChain.mk⟩
      (ChainOutcome.ok ("ans".toList) [⟨"d1".toList⟩, ⟨"d2".toList⟩])
      ("질문".toList)).confidence = 1/2 := by
  have h := confidence_policy.1
    ⟨⟨some 500, some 50, some ("gpt".toList), some ("db".toList),
        some 4, some 512⟩,
      none, none, none, some QAChain.mk⟩
    QAChain.mk 4 ("ans".toList) [⟨"d1".toList⟩, ⟨"d2".toList⟩] ("질문".toList)
    rfl rfl (by norm_num)
  rw [h]
  norm_num

/-- C9: the direct-generation path returns `source_documents = []` on the
model-success branch and on every fallback branch alike. -/
theorem full_rag_no_source_documents (g : GPTOutcome) (question : List Char) :
    (FullRAGSystem.query g question).source_documents = [] := by
  cases g with
  | ok content => rfl
  | exn =>
    unfold FullRAGSystem.query
    cases mock_answers.find? (fun kv => isSubstringOf kv.1 question) <;> rfl

/-- C9 witness: concrete instance of the empty source list. -/
theorem full_rag_no_source_documents_witness :
    (FullRAGSystem.query GPTOutcome.exn ("진료시간 알려줘".toList)).source_documents
      = [] :=
  full_rag_no_source_documents GPTOutcome.exn ("진료시간 알려줘".toList)

/-- C3: when the generative call fails, a question containing a configured
keyword gets a matched keyword's canned answer with confidence `0.8`, a
question containing none of them gets the fixed could-not-find-an-answer
string with confidence `0.3`, and either fallback confidence is strictly
below the model-success confidence `0.9`. -/
theorem fallback_keyword_policy :
    (∀ question : List Char,
      (∃ kv ∈ mock_answers, isSubstringOf kv.1 question = true) →
      ∃ kv ∈ mock_answers, isSubstringOf kv.1 question = true ∧
        FullRAGSystem.query GPTOutcome.exn question =
          ⟨kv.2, [], 8/10, some question⟩) ∧
    (∀ question : List Char,
      (∀ kv ∈ mock_answers, isSubstringOf kv.1 question = false) →
      FullRAGSystem.query GPTOutcome.exn question =
        ⟨noAnswerMsg, [], 3/10, some question⟩) ∧
    (∀ (question content : List Char),
      (FullRAGSystem.query GPTOutcome.exn question).confidence <
        (FullRAGSystem.query (GPTOutcome.ok content) question).confidence) := by
  refine ⟨?_, ?_, ?_⟩
  · intro question hex
    obtain ⟨kv, hmem, hp⟩ := hex
    have hsome : (mock_answers.find? (fun kv => isSubstringOf kv.1 question)).isSome := by
      rw [List.find?_isSome]
      exact ⟨kv, hmem, hp⟩
    obtain ⟨kv2, hfind⟩ := Option.isSome_iff_exists.mp hsome
    have hp2 := List.find?_some hfind
    exact ⟨kv2, List.mem_of_find?_eq_some hfind, hp2,
      full_query_exn_found hfind⟩
  · intro question h
    refine full_query_exn_none ?_
    rw [List.find?_eq_none]
    intro kv hkv
    rw [h kv hkv]
    simp
  · intro question content
    rw [full_query_ok]
    cases hf : mock_answers.find? (fun kv => isSubstringOf kv.1 question) with
    | none =>
      rw [full_query_exn_none hf]
      norm_num
    | some kv =>
      rw [full_query_exn_found hf]
      norm_num

/-- C3 witness: a question with no configured keyword gets the fixed apology
with the lowest confidence constant. -/
theorem fallback_keyword_policy_witness :
    FullRAGSystem.query GPTOutcome.exn ("안녕하세요".toList) =
      ⟨noAnswerMsg, [], 3/10, some ("안녕하세요".toList)⟩ :=
  fallback_keyword_policy.2.1 ("안녕하세요".toList) (by decide)

/-- C10: with the generative call failing, the fallback scans the fixed table
in the order 예약, 취소, 진료시간, 응급실, 밀크시슬 and answers with the first
key that occurs as a substring of the question (so a question containing
several keywords gets the earliest key's canned answer); the result is a
function of the question alone. -/
theorem fallback_first_match_order :
    ∀ q : List Char,
    (isSubstringOf ("예약".toList) q = true →
      FullRAGSystem.query GPTOutcome.exn q =
        ⟨"예약은 전화(02-1234-5678) 또는 온라인(www.hospital.com)으로 가능합니다.".toList,
          [], 8/10, some q⟩) ∧
    (isSubstringOf ("예약".toList) q = false →
      isSubstringOf ("취소".toList) q = true →
      FullRAGSystem.query GPTOutcome.exn q =
        ⟨"예약 취소는 진료 24시간 전까지 가능합니다. 전화 또는 온라인으로 취소해주세요.".toList,
          [], 8/10, some q⟩) ∧
    (isSubstringOf ("예약".toList) q = false →
      isSubstringOf ("취소".toList) q = false →
      isSubstringOf ("진료시간".toList) q = true →
      FullRAGSystem.query GPTOutcome.exn q =
        ⟨"평일 오전 9시부터 오후 6시까지, 토요일 오전 9시부터 오후 1시까지 진료합니다.".toList,
          [], 8/10, some q⟩) ∧
    (isSubstringOf ("예약".toList) q = false →
      isSubstringOf ("취소".toList) q = false →
      isSubstringOf ("진료시간".toList) q = false →
      isSubstringOf ("응급실".toList) q = true →
      FullRAGSystem.query GPTOutcome.exn q =
        ⟨"응급실은 24시간 운영됩니다. 응급상황 시 119에 신고하세요.".toList,
          [], 8/10, some q⟩) ∧
    (isSubstringOf ("예약".toList) q = false →
      isSubstringOf ("취소".toList) q = false →
      isSubstringOf ("진료시간".toList) q = false →
      isSubstringOf ("응급실".toList) q = false →
      isSubstringOf ("밀크시슬".toList) q = true →
      FullRAGSystem.query GPTOutcome.exn q =
        ⟨"밀크시슬(Milk Thistle)은 간 건강에 도움을 주는 천연 보조제입니다. 간 기능 개선과 해독 작용에 도움이 됩니다. 처방전 없이 구입 가능하지만, 복용 전 의사와 상담하시기 바랍니다.".toList,
          [], 8/10, some q⟩) := by
  intro q
  refine ⟨?_, ?_, ?_, ?_, ?_⟩
  · intro h1
    have hfind : mock_answers.find? (fun kv => isSubstringOf kv.1 q) =
        some (("예약".toList,
          "예약은 전화(02-1234-5678) 또는 온라인(www.hospital.com)으로 가능합니다.".toList)) := by
      unfold mock_answers
      rw [List.find?_cons_of_pos _ (by simpa using h1)]
    exact full_query_exn_found hfind
  · intro h1 h2
    have hfind : mock_answers.find? (fun kv => isSubstringOf kv.1 q) =
        some (("취소".toList,
          "예약 취소는 진료 24시간 전까지 가능합니다. 전화 또는 온라인으로 취소해주세요.".toList)) := by
      unfold mock_answers
      rw [List.find?_cons_of_neg _ (by simpa using h1),
        List.find?_cons_of_pos _ (by simpa using h2)]
    exact full_query_exn_found hfind
  · intro h1 h2 h3
    have hfind : mock_answers.find? (fun kv => isSubstringOf kv.1 q) =
        some (("진료시간".toList,
          "평일 오전 9시부터 오후 6시까지, 토요일 오전 9시부터 오후 1시까지 진료합니다.".toList)) := by
      unfold mock_answers
      rw [List.find?_cons_of_neg _ (by simpa using h1),
        List.find?_cons_of_neg _ (by simpa using h2),
        List.find?_cons_of_pos _ (by simpa using h3)]
    exact full_query_exn_found hfind
  · intro h1 h2 h3 h4
    have hfind : mock_answers.find? (fun kv => isSubstringOf kv.1 q) =
        some (("응급실".toList,
          "응급실은 24시간 운영됩니다. 응급상황 시 119에 신고하세요.".toList)) := by
      unfold mock_answers
      rw [List.find?_cons_of_neg _ (by simpa using h1),
        List.find?_cons_of_neg _ (by simpa using h2),
        List.find?_cons_of_neg _ (by simpa using h3),
        List.find?_cons_of_pos _ (by simpa using h4)]
    exact full_query_exn_found hfind
  · intro h1 h2 h3 h4 h5
    have hfind : mock_answers.find? (fun kv => isSubstringOf kv.1 q) =
        some (("밀크시슬".toList,
          "밀크시슬(Milk Thistle)은 간 건강에 도움을 주는 천연 보조제입니다. 간 기능 개선과 해독 작용에 도움이 됩니다. 처방전 없이 구입 가능하지만, 복용 전 의사와 상담하시기 바랍니다.".toList)) := by
      unfold mock_answers
      rw [List.find?_cons_of_neg _ (by simpa using h1),
        List.find?_cons_of_neg _ (by simpa using h2),
        List.find?_cons_of_neg _ (by simpa using h3),
        List.find?_cons_of_neg _ (by simpa using h4),
        List.find?_cons_of_pos _ (by simpa using h5)]
    exact full_query_exn_found hfind

/-- C10 witness: a question containing both 예약 and 취소 receives the 예약
answer, the first matching key in table order. -/
theorem fallback_first_match_order_witness :
    isSubstringOf ("취소".toList) ("예약 취소 문의".toList) = true ∧
    FullRAGSystem.query GPTOutcome.exn ("예약 취소 문의".toList) =
      ⟨"예약은 전화(02-1234-5678) 또는 온라인(www.hospital.com)으로 가능합니다.".toList,
        [], 8/10, some ("예약 취소 문의".toList)⟩ :=
  ⟨by decide, (fallback_first_match_order ("예약 취소 문의".toList)).1 (by decide)⟩

/-- C4 counterexample: `clean` is not idempotent.  On `"a @"` the strip runs
first, the `@` is then removed and leaves a trailing space that the
whitespace-collapse pass keeps (`"a "`), while a second application trims
it (`"a"`). -/
theorem preprocess_text_not_idempotent :
    preprocess_text (some (preprocess_text (some ("a @".toList)))) ≠
      preprocess_text (some ("a @".toList)) := by decide

/-- C4 (amended): cleaning a second time only trims the leading/trailing
whitespace that removing a disallowed character can expose:
`clean (clean x) = strip (clean x)` for every string `x`; in particular
`clean` is idempotent exactly on the inputs whose cleaned form has no
leading or trailing whitespace. -/
theorem preprocess_text_idempotent_up_to_strip (t : List Char) :
    preprocess_text (some (preprocess_text (some t))) =
      pyStrip (preprocess_text (some t)) := by
  have hyeq : preprocess_text (some t) =
      collapseAux false ((pyStrip t).filter (fun c => isAllowedChar c)) := rfl
  have hnorm : NormalWS (preprocess_text (some t)) := by
    rw [hyeq]
    exact normalWS_collapseAux _ false
  have hall : ∀ c ∈ preprocess_text (some t), isAllowedChar c = true := by
    intro c hc
    rw [hyeq] at hc
    rcases mem_collapseAux _ false hc with rfl | hc2
    · decide
    · exact (List.mem_filter.mp hc2).2
  have hfz : (pyStrip (preprocess_text (some t))).filter (fun c => isAllowedChar c) =
      pyStrip (preprocess_text (some t)) :=
    List.filter_eq_self.mpr (fun c hc => hall c (mem_pyStrip hc))
  show collapseAux false
      ((pyStrip (preprocess_text (some t))).filter (fun c => isAllowedChar c)) =
    pyStrip (preprocess_text (some t))
  rw [hfz]
  exact collapseAux_eq_self _ (normalWS_pyStrip hnorm) false
    (fun hf => absurd hf Bool.false_ne_true)

/-- C4 witness: the amended equation at the counterexample input. -/
theorem preprocess_text_idempotent_up_to_strip_witness :
    preprocess_text (some (preprocess_text (some ("a @".toList)))) =
      pyStrip (preprocess_text (some ("a @".toList))) :=
  preprocess_text_idempotent_up_to_strip ("a @".toList)

/-- C5: `create_qa_pairs` emits one pair per source row whose cleaned
question and answer are both non-empty, with `id` the row's ordinal in the
source table; rows with an empty/null side contribute nothing and no pair
carries their ordinal (ids keep gaps, in strictly increasing source
order). -/
theorem create_qa_pairs_spec (df : List RawRow) :
    (∀ u ∈ create_qa_pairs df, ∃ row, df[u.id]? = some row ∧
      preprocess_text row.question ≠ [] ∧ preprocess_text row.answer ≠ [] ∧
      u = mkQAPair u.id (preprocess_text row.question)
            (preprocess_text row.answer)) ∧
    (∀ (i : Nat) (row : RawRow), df[i]? = some row →
      preprocess_text row.question ≠ [] → preprocess_text row.answer ≠ [] →
      mkQAPair i (preprocess_text row.question) (preprocess_text row.answer)
        ∈ create_qa_pairs df) ∧
    (∀ (i : Nat) (row : RawRow), df[i]? = some row →
      (preprocess_text row.question = [] ∨ preprocess_text row.answer = []) →
      ∀ u ∈ create_qa_pairs df, u.id ≠ i) ∧
    (create_qa_pairs df).Pairwise (fun u v => u.id < v.id) := by
  refine ⟨?_, ?_, ?_, create_qa_pairs_from_sorted df 0⟩
  · intro u hu
    obtain ⟨i, row, hget, hq, ha, hu2⟩ := mem_create_qa_pairs_from df 0 hu
    rw [Nat.zero_add] at hu2
    have hid : u.id = i := by rw [hu2]; rfl
    rw [hid]
    exact ⟨row, hget, hq, ha, by rw [hu2]⟩
  · intro i row hget hq ha
    have h := create_qa_pairs_from_mem_of_get df 0 i row hget hq ha
    rwa [Nat.zero_add] at h
  · intro i row hget hbad u hu hid
    obtain ⟨j, row2, hget2, hq2, ha2, hu2⟩ := mem_create_qa_pairs_from df 0 hu
    rw [Nat.zero_add] at hu2
    have hji : j = i := by rw [← hid, hu2]; rfl
    rw [hji, hget] at hget2
    rw [Option.some_inj] at hget2
    rw [hget2] at hbad
    rcases hbad with hb | hb
    · exact hq2 hb
    · exact ha2 hb

/-- C5 witness: in a two-row table whose second row has a null question, the
first row yields the pair with id 0. -/
theorem create_qa_pairs_spec_witness :
    mkQAPair 0 (preprocess_text (some ("abc".toList)))
        (preprocess_text (some ("def".toList))) ∈
      create_qa_pairs
        [⟨some ("abc".toList), some ("def".toList)⟩, ⟨none, some ("x".toList)⟩] :=
  (create_qa_pairs_spec _).2.1 0 ⟨some ("abc".toList), some ("def".toList)⟩
    rfl (by decide) (by decide)

/-- C6 counterexample: the empty question is not given an immediate
validation result.  With the model call succeeding, the direct-generation
`query("")` returns the model's own answer with confidence `0.9` — the model
call is attempted (the result depends on its outcome) and `0.9` is not below
the keyword-hit confidence `0.8`. -/
theorem empty_question_counterexample :
    FullRAGSystem.query (GPTOutcome.ok ("모델 답변".toList)) [] =
      ⟨"모델 답변".toList, [], 9/10, some []⟩ ∧
    ¬((9 : ℚ)/10 < 8/10) ∧
    FullRAGSystem.query (GPTOutcome.ok ("다른 답변".toList)) [] ≠
      FullRAGSystem.query (GPTOutcome.ok ("모델 답변".toList)) [] := by
  refine ⟨rfl, by norm_num, ?_⟩
  intro h
  have h2 := congrArg QueryResult.answer h
  rw [full_query_ok, full_query_ok] at h2
  exact absurd h2 (by decide)

/-- C6 (amended): neither `query` implementation validates the question —
the empty question is processed like any other (the chain/model is invoked
and its outcome determines the result); the empty-input guard lives in the
UI submit handler, which does not call `query` when the stripped input is
empty. -/
theorem empty_question_amended :
    (∀ content : List Char,
      FullRAGSystem.query (GPTOutcome.ok content) [] =
        ⟨content, [], 9/10, some []⟩) ∧
    (∀ (s : RAGState) (c : QAChain) (k : Int) (ans : List Char)
        (docs : List Document),
      s.qa_chain = some c → s.config.top_k = some k → k ≠ 0 →
      HospitalRAGSystem.query s (ChainOutcome.ok ans docs) [] =
        ⟨ans, docs, min 1 ((docs.length : ℚ) / (k : ℚ)), some []⟩) ∧
    (∀ g : GPTOutcome, handle_submit g [] = none) ∧
    (∀ (g : GPTOutcome) (q : List Char), pyStrip q ≠ [] →
      handle_submit g q = some (FullRAGSystem.query g q)) := by
  refine ⟨?_, ?_, ?_, ?_⟩
  · intro content
    exact full_query_ok
  · intro s c k ans docs hqc htk hk0
    exact query_ok_pos hqc htk hk0
  · intro g
    rfl
  · intro g q h
    unfold handle_submit
    rw [if_pos h]

/-- C6 amended-claim witness: a ready system processes the empty question
through the chain and returns the chain's answer. -/
theorem empty_question_amended_witness :
    HospitalRAGSystem.query
      ⟨⟨some 500, some 50, some ("gpt".toList), some ("db".toList),
          some 3, some 512⟩,
        none, none, none, some QAChain.mk⟩
      (ChainOutcome.ok ("체인 답변".toList) [⟨"문서".toList⟩]) [] =
      ⟨"체인 답변".toList, [⟨"문서".toList⟩],
        min 1 ((([(⟨"문서".toList⟩ : Document)] : List Document).length : ℚ) /
          ((3 : Int) : ℚ)), some []⟩ :=
  empty_question_amended.2.1 _ QAChain.mk 3 _ _ rfl rfl (by norm_num)

/-- C7 counterexample: a configuration document missing every recognized key
loads successfully (no `ConfigError` exists, `__init__` stores the document
unexamined), and the missing values are first met mid-pipeline where the
broad `except` swallows them: `setup_vectorstore` returns with the state
unchanged. -/
theorem config_missing_key_counterexample :
    HospitalRAGSystem.init ⟨none, none, none, none, none, none⟩ =
      ⟨⟨none, none, none, none, none, none⟩, none, none, none, none⟩ ∧
    HospitalRAGSystem.setup_vectorstore
        (HospitalRAGSystem.init ⟨none, none, none, none, none, none⟩)
        (BuildOutcome.ok VectorStore.mk) =
      HospitalRAGSystem.init ⟨none, none, none, none, none, none⟩ :=
  ⟨rfl, rfl⟩

/-- C7 (amended): configuration loading performs no validation at all — for
every document, including ones missing recognized keys, `__init__` returns
normally with the document stored as-is; a missing key is first encountered
mid-pipeline, where `setup_vectorstore` swallows the `KeyError` (state
unchanged) and `query` converts it into an error result, never a
`ConfigError` at load time. -/
theorem config_errors_surface_mid_pipeline :
    (∀ cfg : ConfigDoc,
      HospitalRAGSystem.init cfg = ⟨cfg, none, none, none, none⟩) ∧
    (∀ (s : RAGState) (build : BuildOutcome),
      s.config.chunk_size = none ∨ s.config.chunk_overlap = none ∨
        s.config.vectorstore_path = none →
      HospitalRAGSystem.setup_vectorstore s build = s) ∧
    (∀ (s : RAGState) (c : QAChain) (ans : List Char) (docs : List Document)
        (q : List Char),
      s.qa_chain = some c → s.config.top_k = none →
      HospitalRAGSystem.query s (ChainOutcome.ok ans docs) q =
        ⟨queryErrorAnswer topKKeyErrorMsg, [], 0, some q⟩) := by
  refine ⟨?_, ?_, ?_⟩
  · intro cfg
    rfl
  · intro s build h
    unfold HospitalRAGSystem.setup_vectorstore
    rcases h with h | h | h
    · rw [h]
    · rcases hcs : s.config.chunk_size with _ | cs
      · rfl
      · rw [h]
    · rcases hcs : s.config.chunk_size with _ | cs
      · rfl
      · rcases hco : s.config.chunk_overlap with _ | co
        · rfl
        · rw [h]
  · intro s c ans docs q hqc htk
    exact query_ok_no_topk hqc htk

/-- C7 amended-claim witness: a document missing only `model.chunk_size` —
`setup_vectorstore` hits the `KeyError` and leaves the state untouched even
though the external build would have succeeded. -/
theorem config_errors_witness :
    HospitalRAGSystem.setup_vectorstore
        ⟨⟨none, some 50, some ("gpt".toList), some ("db".toList),
            some 3, some 512⟩, none, none, none, none⟩
        (BuildOutcome.ok VectorStore.mk) =
      ⟨⟨none, some 50, some ("gpt".toList), some ("db".toList),
          some 3, some 512⟩, none, none, none, none⟩ :=
  config_errors_surface_mid_pipeline.2.1 _ _ (Or.inl rfl)
